import Mathlib

/-!
Verification of the build-orchestration front door of the webpack-source-code
repository (`src/webpack-main/lib/webpack.js`).

The JavaScript entry file is embedded shallowly: each function of the source is
translated into a Lean function that threads an explicit event trace recording
every observable action (normalization, plugin invocations, hook firings,
run/close/watch calls, deprecation diagnostics).  External collaborators that
live outside the provided sources (the Compiler class, the schema validator,
Node's `util.deprecate`, `process.nextTick`) are modelled from the spec as
abstract events or as behaviour parameters, as documented on each definition.
-/

namespace Webpack

/-- Errors that can arise during construction.  `typeError` models the
JavaScript TypeError raised when a non-function property is invoked;
`validationError` models the descriptive failure raised by the slow schema
validator; `invalidPluginError` is the error shape the spec's §7 taxonomy
describes for a bad plugin (carrying the offending index) — the source never
constructs it, it exists so the spec's claim can be stated and compared. -/
inductive JsError
  | validationError (msg : String)
  | typeError (msg : String)
  | invalidPluginError (idx : Nat)
  deriving DecidableEq, Repr

/-- A configured plugin, by shape: a callable function, an object exposing an
`apply` operation, or a value that is neither (`invalid`). -/
inductive Plugin
  | callable
  | applyable
  | invalid
  deriving DecidableEq, Repr

/-- The `plugins` field of an options object as the source inspects it with
`Array.isArray`: an array of plugins, absent, or some non-array value (for
example a single plugin object or function). -/
inductive PluginsField
  | absent
  | nonArray
  | array (l : List Plugin)
  deriving DecidableEq, Repr

/-- A watch-options value: the empty object `\x7b\x7d` that the source
substitutes for a missing `watchOptions`, or a user-supplied value
(abstracted by a numeric id). -/
inductive WatchOpts
  | empty
  | value (v : Nat)
  deriving DecidableEq, Repr

/-- The fields of a webpack options object that the entry file reads.
`watch` is the truthiness of the `watch` flag; `watchOptions = none` models a
missing or falsy `watchOptions`; `dependencies = none` models a missing
`dependencies` field (a present empty array is `some []`, which is truthy in
JavaScript); `fastCheckOk` is the verdict of the precompiled schema predicate
`webpackOptionsSchemaCheck` on this configuration (an external pure
predicate, carried as data). -/
structure WebpackOptions where
  pluginsField : PluginsField
  watch : Bool
  watchOptions : Option WatchOpts
  dependencies : Option (List String)
  fastCheckOk : Bool
  deriving DecidableEq, Repr

/-- A compiler instance: its identity and the options it was built from. -/
structure Compiler where
  id : Nat
  options : WebpackOptions
  deriving DecidableEq, Repr

/-- The argument passed to `compiler.watch`: a single watch-options value for
a scalar build, or the per-child list for a multi build. -/
inductive WatchArg
  | single (w : WatchOpts)
  | perChild (ws : List WatchOpts)
  deriving DecidableEq, Repr

/-- Observable events of the orchestration, in the order the source performs
them.  Events standing for external collaborators (`normalize`,
`baseDefaults`, `nodeEnvironmentApply`, `fullDefaults`, the hook firings,
`optionsApplyProcess`, `slowValidate`) are modelled from the spec: the
collaborator code is not among the provided sources, only its invocation site
is, so the event records the invocation.  `pluginCallable idx recv arg`
records `plugin.call(compiler, compiler)` with the receiver and argument
compiler ids; `pluginApply idx arg` records `plugin.apply(compiler)`. -/
inductive Ev
  | normalize
  | baseDefaults
  | constructCompiler (cid : Nat)
  | nodeEnvironmentApply (cid : Nat)
  | pluginCallable (idx recv arg : Nat)
  | pluginApply (idx arg : Nat)
  | fullDefaults
  | hookEnvironment (cid : Nat)
  | hookAfterEnvironment (cid : Nat)
  | optionsApplyProcess (cid : Nat)
  | hookInit (cid : Nat)
  | slowValidate
  | deprecate (code : String)
  | setDependencies (cid : Nat) (deps : List String)
  | runCall
  | closeCall
  | watchCall (w : WatchArg)
  | callbackInvoke (err : Option JsError) (stats : Option Nat)
  | nextTickCallbackInvoke (err : JsError)
  deriving DecidableEq, Repr

/-- The plugin-registration loop of `createCompiler` (source lines 77-89):
walks `options.plugins` in declared order; a callable plugin is invoked as
`plugin.call(compiler, compiler)`, an applyable one as
`plugin.apply(compiler)`, and a plugin of neither shape raises a TypeError
(`plugin.apply` is not a function), aborting the loop. -/
def registerPlugins (cid : Nat) : Nat → List Plugin → Except JsError Unit × List Ev
  | _, [] => (Except.ok (), [])
  | idx, p :: rest =>
    match p with
    | Plugin.callable =>
      let r := registerPlugins cid (idx + 1) rest
      (r.1, Ev.pluginCallable idx cid cid :: r.2)
    | Plugin.applyable =>
      let r := registerPlugins cid (idx + 1) rest
      (r.1, Ev.pluginApply idx cid :: r.2)
    | Plugin.invalid =>
      (Except.error (JsError.typeError "plugin.apply is not a function"), [])

/-- The events of `createCompiler` before plugin registration (source lines
65-74): normalization, base defaults, Compiler construction, and the
NodeEnvironmentPlugin's `apply`. -/
def preTrace (cid : Nat) : List Ev :=
  [Ev.normalize, Ev.baseDefaults, Ev.constructCompiler cid, Ev.nodeEnvironmentApply cid]

/-- The events of `createCompiler` after plugin registration (source lines
91-100): full defaults, the `environment` and `afterEnvironment` hooks,
`WebpackOptionsApply().process`, and the `initialize` hook. -/
def postTrace (cid : Nat) : List Ev :=
  [Ev.fullDefaults, Ev.hookEnvironment cid, Ev.hookAfterEnvironment cid,
   Ev.optionsApplyProcess cid, Ev.hookInit cid]

/-- The function `createCompiler` (source lines 62-103): normalize, apply base defaults,
construct the Compiler, apply NodeEnvironmentPlugin, register user plugins
when `options.plugins` is an array, apply full defaults, fire `environment`
then `afterEnvironment`, apply option-derived plugins, fire `initialize`,
return the compiler.  A throw during plugin registration aborts the rest. -/
def createCompiler (cid : Nat) (rawOptions : WebpackOptions) :
    Except JsError Compiler × List Ev :=
  match rawOptions.pluginsField with
  | PluginsField.array l =>
    let r := registerPlugins cid 0 l
    match r.1 with
    | Except.error e => (Except.error e, preTrace cid ++ r.2)
    | Except.ok _ =>
      (Except.ok { id := cid, options := rawOptions }, preTrace cid ++ r.2 ++ postTrace cid)
  | _ => (Except.ok { id := cid, options := rawOptions }, preTrace cid ++ postTrace cid)

/-- A multi-compiler: the ordered child compilers and the dependency graph
recorded by `setDependencies`, as directed edges (child compiler id, named
peer). -/
structure MultiCompiler where
  children : List Compiler
  edges : List (Nat × String)
  deriving DecidableEq, Repr

/-- The mapping `childOptions.map(options => createCompiler(options))` (source line 44):
creates one compiler per configuration in order; a throw in any
`createCompiler` propagates, aborting the whole map.  Children are numbered
by position. -/
def mapCreateCompilers : Nat → List WebpackOptions → Except JsError (List Compiler) × List Ev
  | _, [] => (Except.ok [], [])
  | cid, o :: rest =>
    let r := createCompiler cid o
    match r.1 with
    | Except.error e => (Except.error e, r.2)
    | Except.ok c =>
      let r2 := mapCreateCompilers (cid + 1) rest
      (r2.1.map (fun cs => c :: cs), r.2 ++ r2.2)

/-- The `setDependencies` loop of `createMultiCompiler` (source lines 46-53):
for each child whose options carry a (truthy) `dependencies` value, record an
edge from the child to every named peer.  Modelled from the spec for the
`MultiCompiler.setDependencies` collaborator: it records the declared edges
in the coordinator's dependency graph. -/
def dependencyEdges : List Compiler → List (Nat × String) × List Ev
  | [] => ([], [])
  | c :: rest =>
    let r := dependencyEdges rest
    match c.options.dependencies with
    | some deps =>
      (deps.map (fun name => (c.id, name)) ++ r.1, Ev.setDependencies c.id deps :: r.2)
    | none => (r.1, r.2)

/-- The function `createMultiCompiler` (source lines 43-55): create every child compiler,
wrap them in a MultiCompiler, then record declared dependency edges. -/
def createMultiCompiler (childOptions : List WebpackOptions) :
    Except JsError MultiCompiler × List Ev :=
  let r := mapCreateCompilers 0 childOptions
  match r.1 with
  | Except.error e => (Except.error e, r.2)
  | Except.ok compilers =>
    let d := dependencyEdges compilers
    (Except.ok { children := compilers, edges := d.1 }, r.2 ++ d.2)

/-- The input to the `webpack` entry function: a scalar options object or an
array of options objects. -/
inductive WInput
  | single (o : WebpackOptions)
  | multi (l : List WebpackOptions)
  deriving DecidableEq, Repr

/-- The helper `asArray` (source lines 119-120): wrap a scalar in a one-element array,
keep an array as is. -/
def asArray : WInput → List WebpackOptions
  | WInput.single o => [o]
  | WInput.multi l => l

/-- The compiler handle returned by the entry function: a single Compiler or
a MultiCompiler. -/
inductive CompilerHandle
  | single (c : Compiler)
  | multi (m : MultiCompiler)
  deriving DecidableEq, Repr

/-- Modelled from the spec: Node's `util.deprecate` with a deprecation code
(the emit-once collaborator is not among the provided sources).  Per §7 and
§9 of the spec, a diagnostic is emitted at most once per distinct code per
process: the process-scoped set of already-emitted codes is threaded
explicitly, and the diagnostic event is produced only when the code is not
yet in it. -/
def deprecateOnce (code : String) (emitted : List String) : List Ev × List String :=
  if code ∈ emitted then ([], emitted)
  else ([Ev.deprecate code], code :: emitted)

/-- The result of the inner `create` closure (source line 163): the compiler
handle together with the `watch` flag and the watch options chosen for it. -/
structure CreateResult where
  compiler : CompilerHandle
  watch : Bool
  watchOptions : WatchArg
  deriving DecidableEq, Repr

/-- The construction part of the `create` closure after the schema gate
(source lines 139-163): an array input goes through `createMultiCompiler`,
with `watch` the disjunction of the children's watch flags and per-child
watch options (`watchOptions || \x7b\x7d` for each child); a scalar input
goes through `createCompiler` with its own `watch` flag and
`watchOptions || \x7b\x7d`. -/
def construct : WInput → Except JsError CreateResult × List Ev
  | WInput.multi l =>
    let r := createMultiCompiler l
    match r.1 with
    | Except.error e => (Except.error e, r.2)
    | Except.ok m =>
      (Except.ok
        { compiler := CompilerHandle.multi m,
          watch := l.any (fun o => o.watch),
          watchOptions := WatchArg.perChild (l.map (fun o => o.watchOptions.getD WatchOpts.empty)) },
        r.2)
  | WInput.single o =>
    let r := createCompiler 0 o
    match r.1 with
    | Except.error e => (Except.error e, r.2)
    | Except.ok c =>
      (Except.ok
        { compiler := CompilerHandle.single c,
          watch := o.watch,
          watchOptions := WatchArg.single (o.watchOptions.getD WatchOpts.empty) },
        r.2)

/-- The deprecation code of the schema-gate discrepancy diagnostic (source
line 136). -/
def depPreCompiledSchemaInvalid : String := "DEP_WEBPACK_PRE_COMPILED_SCHEMA_INVALID"

/-- The deprecation code of the watch-without-callback diagnostic (source
line 196). -/
def depWatchWithoutCallback : String := "DEP_WEBPACK_WATCH_WITHOUT_CALLBACK"

/-- The `create` closure (source lines 129-164).  The schema gate (lines
131-138) first evaluates the precompiled predicate on every configuration of
`asArray options`; when all pass nothing else happens.  Otherwise the slow
validator runs on the whole options value — `slowVerdict` is its verdict,
modelled from the spec since `validateSchema` is not among the provided
sources: `some e` means it raises `e`, `none` means it finds no problem, in
which case the discrepancy diagnostic is emitted (once per process) and
construction proceeds with the original options. -/
def create (options : WInput) (slowVerdict : Option JsError) (emitted : List String) :
    Except JsError CreateResult × List Ev × List String :=
  if (asArray options).all (fun o => o.fastCheckOk) then
    let r := construct options
    (r.1, r.2, emitted)
  else
    match slowVerdict with
    | some e => (Except.error e, [Ev.slowValidate], emitted)
    | none =>
      let d := deprecateOnce depPreCompiledSchemaInvalid emitted
      let r := construct options
      (r.1, (Ev.slowValidate :: d.1) ++ r.2, d.2)

/-- Modelled from the spec: the asynchronous `Compiler.run`/`close`
collaborators (§6).  `run`'s callback receives `(runErr, runStats)` and
`close`'s callback receives `closeErr`; the behaviour is carried as data. -/
structure RunCloseBehavior where
  runErr : Option JsError
  runStats : Option Nat
  closeErr : Option JsError
  deriving DecidableEq, Repr

/-- JavaScript `err || err2` on error values: the first operand when truthy
(present), otherwise the second. -/
def jsOr (err err2 : Option JsError) : Option JsError :=
  match err with
  | some e => some e
  | none => err2

/-- The `webpack` entry function (source lines 128-201).  With a callback:
construction runs inside a try block; on success either `watch` is started
with the chosen watch options and the callback, or `run` is invoked and
chained with `close`, the callback receiving `(err || err2, stats)`; on a
construction throw the error is delivered to the callback on the next tick
and `null` (here `none`) is returned.  Without a callback: construction
errors propagate synchronously; on success, when `watch` is set the
watch-without-callback diagnostic is emitted (once per process) and the
constructed, non-running compiler is returned. -/
def webpack (options : WInput) (hasCallback : Bool) (slowVerdict : Option JsError)
    (ext : RunCloseBehavior) (emitted : List String) :
    Except JsError (Option CompilerHandle) × List Ev × List String :=
  if hasCallback then
    let r := create options slowVerdict emitted
    match r.1 with
    | Except.ok cr =>
      if cr.watch then
        (Except.ok (some cr.compiler), r.2.1 ++ [Ev.watchCall cr.watchOptions], r.2.2)
      else
        (Except.ok (some cr.compiler),
          r.2.1 ++ [Ev.runCall, Ev.closeCall,
            Ev.callbackInvoke (jsOr ext.runErr ext.closeErr) ext.runStats],
          r.2.2)
    | Except.error e =>
      (Except.ok none, r.2.1 ++ [Ev.nextTickCallbackInvoke e], r.2.2)
  else
    let r := create options slowVerdict emitted
    match r.1 with
    | Except.error e => (Except.error e, r.2.1, r.2.2)
    | Except.ok cr =>
      if cr.watch then
        let d := deprecateOnce depWatchWithoutCallback r.2.2
        (Except.ok (some cr.compiler), r.2.1 ++ d.1, d.2)
      else
        (Except.ok (some cr.compiler), r.2.1, r.2.2)

/-! Spec-side definitions: statements of the claims compare the embedded code
against these, which follow the spec's words. -/

/-- The registration event the spec prescribes for the plugin at a given
index (§4.4): a callable plugin is invoked with the compiler as both receiver
and sole argument, any other plugin through its `apply` operation. -/
def registrationEvent (cid idx : Nat) : Plugin → Ev
  | Plugin.callable => Ev.pluginCallable idx cid cid
  | _ => Ev.pluginApply idx cid

/-- The spec's registration sequence: one event per plugin, in declared list
order, indices counted from `idx`. -/
def registrationEvents (cid : Nat) : Nat → List Plugin → List Ev
  | _, [] => []
  | idx, p :: rest => registrationEvent cid idx p :: registrationEvents cid (idx + 1) rest

/-- The watch decision of the spec's dispatch table (§4.6): an array input
watches when any element's watch flag is true, a scalar watches when its own
flag is true. -/
def expectedWatch : WInput → Bool
  | WInput.single o => o.watch
  | WInput.multi l => l.any (fun o => o.watch)

/-- The watch options the spec's dispatch table passes to `watch`: the
per-child list (each element's `watchOptions`, or the empty value when
unset) for an array, the scalar's own `watchOptions` (or the empty value)
otherwise. -/
def expectedWatchArg : WInput → WatchArg
  | WInput.single o => WatchArg.single (o.watchOptions.getD WatchOpts.empty)
  | WInput.multi l => WatchArg.perChild (l.map (fun o => o.watchOptions.getD WatchOpts.empty))

/-- Whether an `Except` result is an error. -/
def isErr {α : Type} : Except JsError α → Bool
  | Except.error _ => true
  | Except.ok _ => false

/-- Whether `createCompiler` throws on the given options (the compiler id
does not affect it). -/
def createCompilerThrows (o : WebpackOptions) : Bool :=
  isErr (createCompiler 0 o).1

/-- Event kinds that compiler construction itself may produce: everything
except the execution-dispatch events, the schema-gate events and deprecation
diagnostics. -/
def constructionEvent : Ev → Bool
  | Ev.runCall => false
  | Ev.closeCall => false
  | Ev.watchCall _ => false
  | Ev.callbackInvoke _ _ => false
  | Ev.nextTickCallbackInvoke _ => false
  | Ev.deprecate _ => false
  | Ev.slowValidate => false
  | _ => true

/-! Helper lemmas. -/

theorem registerPlugins_events (cid idx : Nat) (l : List Plugin) :
    ∀ e ∈ (registerPlugins cid idx l).2,
      (∃ i r a, e = Ev.pluginCallable i r a) ∨ (∃ i a, e = Ev.pluginApply i a) := by
  induction l generalizing idx with
  | nil => intro e he; simp [registerPlugins] at he
  | cons p rest ih =>
    intro e he
    cases p with
    | callable =>
      simp only [registerPlugins, List.mem_cons] at he
      rcases he with h | h
      · exact Or.inl ⟨idx, cid, cid, h⟩
      · exact ih (idx + 1) e h
    | applyable =>
      simp only [registerPlugins, List.mem_cons] at he
      rcases he with h | h
      · exact Or.inr ⟨idx, cid, h⟩
      · exact ih (idx + 1) e h
    | invalid => simp [registerPlugins] at he

theorem registerPlugins_ok (cid idx : Nat) (l : List Plugin)
    (hv : ∀ p ∈ l, p ≠ Plugin.invalid) :
    registerPlugins cid idx l = (Except.ok (), registrationEvents cid idx l) := by
  induction l generalizing idx with
  | nil => rfl
  | cons p rest ih =>
    have hp : p ≠ Plugin.invalid := hv p (List.mem_cons_self p rest)
    have hrest : ∀ q ∈ rest, q ≠ Plugin.invalid := fun q hq => hv q (List.mem_cons_of_mem p hq)
    cases p with
    | callable => simp [registerPlugins, registrationEvents, registrationEvent, ih (idx + 1) hrest]
    | applyable => simp [registerPlugins, registrationEvents, registrationEvent, ih (idx + 1) hrest]
    | invalid => exact absurd rfl hp

theorem registrationEvents_get (cid k : Nat) (l : List Plugin) (i : Nat) :
    (registrationEvents cid k l).get? i = (l.get? i).map (fun p => registrationEvent cid (k + i) p) := by
  induction l generalizing k i with
  | nil => simp [registrationEvents]
  | cons p rest ih =>
    cases i with
    | zero => simp [registrationEvents]
    | succ j =>
      simp only [registrationEvents, List.get?]
      rw [ih (k + 1) j]
      have : k + 1 + j = k + (j + 1) := by omega
      rw [this]

theorem registerPlugins_result (cid idx : Nat) (l : List Plugin) :
    (registerPlugins cid idx l).1 =
      if Plugin.invalid ∈ l then Except.error (JsError.typeError "plugin.apply is not a function")
      else Except.ok () := by
  induction l generalizing idx with
  | nil => simp [registerPlugins]
  | cons p rest ih =>
    cases p with
    | callable => simp [registerPlugins, ih (idx + 1), List.mem_cons]
    | applyable => simp [registerPlugins, ih (idx + 1), List.mem_cons]
    | invalid => simp [registerPlugins, List.mem_cons]

theorem createCompiler_result (cid : Nat) (o : WebpackOptions) :
    (createCompiler cid o).1 =
      match o.pluginsField with
      | PluginsField.array l =>
        if Plugin.invalid ∈ l then
          Except.error (JsError.typeError "plugin.apply is not a function")
        else Except.ok { id := cid, options := o }
      | _ => Except.ok { id := cid, options := o } := by
  cases hpf : o.pluginsField with
  | array l =>
    simp only [createCompiler, hpf]
    rw [show (registerPlugins cid 0 l).1 = _ from registerPlugins_result cid 0 l]
    by_cases hmem : Plugin.invalid ∈ l <;> simp [hmem]
  | absent => simp [createCompiler, hpf]
  | nonArray => simp [createCompiler, hpf]

theorem createCompilerThrows_iff (cid : Nat) (o : WebpackOptions) :
    isErr (createCompiler cid o).1 = createCompilerThrows o := by
  show isErr (createCompiler cid o).1 = isErr (createCompiler 0 o).1
  rw [createCompiler_result, createCompiler_result]
  cases o.pluginsField with
  | array l => by_cases hmem : Plugin.invalid ∈ l <;> simp [hmem, isErr]
  | absent => rfl
  | nonArray => rfl

theorem preTrace_construction (cid : Nat) :
    ∀ e ∈ preTrace cid, constructionEvent e = true := by
  intro e he
  simp only [preTrace, List.mem_cons, List.not_mem_nil, or_false] at he
  rcases he with h | h | h | h <;> subst h <;> rfl

theorem postTrace_construction (cid : Nat) :
    ∀ e ∈ postTrace cid, constructionEvent e = true := by
  intro e he
  simp only [postTrace, List.mem_cons, List.not_mem_nil, or_false] at he
  rcases he with h | h | h | h | h <;> subst h <;> rfl

theorem createCompiler_trace_construction (cid : Nat) (o : WebpackOptions) :
    ∀ e ∈ (createCompiler cid o).2, constructionEvent e = true := by
  intro e he
  have hreg : ∀ idx l, e ∈ (registerPlugins cid idx l).2 → constructionEvent e = true := by
    intro idx l hmem
    rcases registerPlugins_events cid idx l e hmem with ⟨i, r, a, h⟩ | ⟨i, a, h⟩ <;> subst h <;> rfl
  cases hpf : o.pluginsField with
  | array l =>
    simp only [createCompiler, hpf] at he
    rcases hr : (registerPlugins cid 0 l).1 with e0 | u
    · rw [hr] at he
      simp only [List.mem_append] at he
      rcases he with h | h
      · exact preTrace_construction cid e h
      · exact hreg 0 l h
    · rw [hr] at he
      simp only [List.mem_append] at he
      rcases he with (h | h) | h
      · exact preTrace_construction cid e h
      · exact hreg 0 l h
      · exact postTrace_construction cid e h
  | absent =>
    simp only [createCompiler, hpf, List.mem_append] at he
    rcases he with h | h
    · exact preTrace_construction cid e h
    · exact postTrace_construction cid e h
  | nonArray =>
    simp only [createCompiler, hpf, List.mem_append] at he
    rcases he with h | h
    · exact preTrace_construction cid e h
    · exact postTrace_construction cid e h

theorem mapCreateCompilers_trace_construction (cid : Nat) (l : List WebpackOptions) :
    ∀ e ∈ (mapCreateCompilers cid l).2, constructionEvent e = true := by
  induction l generalizing cid with
  | nil => intro e he; simp [mapCreateCompilers] at he
  | cons o rest ih =>
    intro e he
    simp only [mapCreateCompilers] at he
    rcases hr : (createCompiler cid o).1 with e0 | c
    · rw [hr] at he
      exact createCompiler_trace_construction cid o e he
    · rw [hr] at he
      simp only [List.mem_append] at he
      rcases he with h | h
      · exact createCompiler_trace_construction cid o e h
      · exact ih (cid + 1) e h

theorem dependencyEdges_trace_construction (cs : List Compiler) :
    ∀ e ∈ (dependencyEdges cs).2, constructionEvent e = true := by
  induction cs with
  | nil => intro e he; simp [dependencyEdges] at he
  | cons c rest ih =>
    intro e he
    simp only [dependencyEdges] at he
    rcases hd : c.options.dependencies with _ | deps
    · rw [hd] at he
      exact ih e he
    · rw [hd] at he
      simp only [List.mem_cons] at he
      rcases he with h | h
      · subst h; rfl
      · exact ih e h

theorem construct_trace_construction (options : WInput) :
    ∀ e ∈ (construct options).2, constructionEvent e = true := by
  intro e he
  cases options with
  | single o =>
    simp only [construct] at he
    rcases hr : (createCompiler 0 o).1 with e0 | c <;> rw [hr] at he <;>
      exact createCompiler_trace_construction 0 o e he
  | multi l =>
    simp only [construct, createMultiCompiler] at he
    rcases hr : (mapCreateCompilers 0 l).1 with e0 | cs
    · rw [hr] at he
      exact mapCreateCompilers_trace_construction 0 l e he
    · rw [hr] at he
      simp only [List.mem_append] at he
      rcases he with h | h
      · exact mapCreateCompilers_trace_construction 0 l e h
      · exact dependencyEdges_trace_construction cs e h

theorem create_trace_shape (options : WInput) (slowVerdict : Option JsError)
    (emitted : List String) :
    ∀ e ∈ (create options slowVerdict emitted).2.1,
      constructionEvent e = true ∨ e = Ev.slowValidate
        ∨ e = Ev.deprecate depPreCompiledSchemaInvalid := by
  intro e he
  by_cases hall : (asArray options).all (fun o => o.fastCheckOk)
  · simp only [create, if_pos hall] at he
    exact Or.inl (construct_trace_construction options e he)
  · simp only [create, if_neg hall] at he
    cases slowVerdict with
    | some err =>
      simp only [List.mem_singleton] at he
      exact Or.inr (Or.inl he)
    | none =>
      simp only [deprecateOnce] at he
      by_cases hmem : depPreCompiledSchemaInvalid ∈ emitted
      · simp only [if_pos hmem, List.mem_append, List.mem_cons, List.not_mem_nil,
          or_false] at he
        rcases he with h | h
        · exact Or.inr (Or.inl h)
        · exact Or.inl (construct_trace_construction options e h)
      · simp only [if_neg hmem, List.mem_append, List.mem_cons, List.not_mem_nil,
          or_false] at he
        rcases he with (h | h) | h
        · exact Or.inr (Or.inl h)
        · exact Or.inr (Or.inr h)
        · exact Or.inl (construct_trace_construction options e h)

theorem createCompiler_ok_shape (cid : Nat) (o : WebpackOptions) (c : Compiler)
    (h : (createCompiler cid o).1 = Except.ok c) : c = { id := cid, options := o } := by
  cases hpf : o.pluginsField with
  | array l =>
    simp only [createCompiler, hpf] at h
    rcases hr : (registerPlugins cid 0 l).1 with e0 | u <;> rw [hr] at h
    · cases h
    · cases h; rfl
  | absent => simp only [createCompiler, hpf] at h; cases h; rfl
  | nonArray => simp only [createCompiler, hpf] at h; cases h; rfl

theorem mapCreateCompilers_ok (cid : Nat) (l : List WebpackOptions) (cs : List Compiler)
    (h : (mapCreateCompilers cid l).1 = Except.ok cs) :
    cs.map (fun c => c.options) = l ∧ cs.map (fun c => c.id) = List.range' cid l.length := by
  induction l generalizing cid cs with
  | nil =>
    simp only [mapCreateCompilers] at h
    cases h
    simp
  | cons o rest ih =>
    simp only [mapCreateCompilers] at h
    rcases hr : (createCompiler cid o).1 with e0 | c
    · rw [hr] at h; cases h
    · rw [hr] at h
      rcases hr2 : (mapCreateCompilers (cid + 1) rest).1 with e1 | cs2
      · rw [hr2] at h; cases h
      · rw [hr2] at h
        simp only [Except.map] at h
        cases h
        have hc := createCompiler_ok_shape cid o c hr
        subst hc
        rcases ih (cid + 1) cs2 hr2 with ⟨ho, hi⟩
        refine ⟨by simp [ho], ?_⟩
        simp only [List.map_cons, hi, List.length_cons, List.range'_succ]

theorem mapCreateCompilers_err (cid : Nat) (l : List WebpackOptions)
    (h : ∃ o ∈ l, createCompilerThrows o = true) :
    isErr (mapCreateCompilers cid l).1 = true := by
  induction l generalizing cid with
  | nil => rcases h with ⟨o, ho, _⟩; simp at ho
  | cons p rest ih =>
    rcases h with ⟨o, ho, hthrows⟩
    simp only [mapCreateCompilers]
    rcases hr : (createCompiler cid p).1 with e0 | c
    · simp [isErr]
    · rcases List.mem_cons.mp ho with h1 | h1
      · subst h1
        have hf : createCompilerThrows o = false := by
          rw [← createCompilerThrows_iff cid o, hr]
          rfl
        rw [hf] at hthrows
        cases hthrows
      · have htail := ih (cid + 1) ⟨o, h1, hthrows⟩
        rcases hr2 : (mapCreateCompilers (cid + 1) rest).1 with e1 | cs2
        · simp [isErr, Except.map]
        · rw [hr2] at htail
          simp [isErr] at htail

theorem dependencyEdges_mem (cs : List Compiler) (cid : Nat) (name : String) :
    (cid, name) ∈ (dependencyEdges cs).1 ↔
      ∃ c ∈ cs, c.id = cid ∧ ∃ deps, c.options.dependencies = some deps ∧ name ∈ deps := by
  induction cs with
  | nil => simp [dependencyEdges]
  | cons c rest ih =>
    simp only [dependencyEdges]
    rcases hd : c.options.dependencies with _ | deps
    · rw [ih]
      constructor
      · rintro ⟨c2, hc2, hrest⟩
        exact ⟨c2, List.mem_cons_of_mem c hc2, hrest⟩
      · rintro ⟨c2, hc2, hid, deps2, hdeps2, hname⟩
        rcases List.mem_cons.mp hc2 with h1 | h1
        · subst h1; rw [hd] at hdeps2; cases hdeps2
        · exact ⟨c2, h1, hid, deps2, hdeps2, hname⟩
    · simp only [List.mem_append, List.mem_map, ih]
      constructor
      · rintro (⟨name2, hname2, heq⟩ | ⟨c2, hc2, hrest⟩)
        · cases heq
          exact ⟨c, List.mem_cons_self c rest, rfl, deps, hd, hname2⟩
        · exact ⟨c2, List.mem_cons_of_mem c hc2, hrest⟩
      · rintro ⟨c2, hc2, hid, deps2, hdeps2, hname⟩
        rcases List.mem_cons.mp hc2 with h1 | h1
        · subst h1
          rw [hd] at hdeps2
          cases hdeps2
          exact Or.inl ⟨name, hname, by rw [hid]⟩
        · exact Or.inr ⟨c2, h1, hid, deps2, hdeps2, hname⟩

theorem construct_ok_watch (options : WInput) (cr : CreateResult)
    (h : (construct options).1 = Except.ok cr) :
    cr.watch = expectedWatch options ∧ cr.watchOptions = expectedWatchArg options := by
  cases options with
  | single o =>
    simp only [construct] at h
    rcases hr : (createCompiler 0 o).1 with e0 | c <;> rw [hr] at h
    · cases h
    · cases h; exact ⟨rfl, rfl⟩
  | multi l =>
    simp only [construct] at h
    rcases hr : (createMultiCompiler l).1 with e0 | m <;> rw [hr] at h
    · cases h
    · cases h; exact ⟨rfl, rfl⟩

theorem create_ok_watch (options : WInput) (slowVerdict : Option JsError)
    (emitted : List String) (cr : CreateResult)
    (h : (create options slowVerdict emitted).1 = Except.ok cr) :
    cr.watch = expectedWatch options ∧ cr.watchOptions = expectedWatchArg options := by
  by_cases hall : (asArray options).all (fun o => o.fastCheckOk)
  · simp only [create, if_pos hall] at h
    exact construct_ok_watch options cr h
  · simp only [create, if_neg hall] at h
    cases slowVerdict with
    | some err => cases h
    | none => exact construct_ok_watch options cr h

theorem registerPlugins_first_invalid (cid idx : Nat) (l : List Plugin) (k : Nat)
    (hget : l.get? k = some Plugin.invalid)
    (hbefore : ∀ j, j < k → l.get? j ≠ some Plugin.invalid) :
    registerPlugins cid idx l =
      (Except.error (JsError.typeError "plugin.apply is not a function"),
       registrationEvents cid idx (l.take k)) := by
  induction l generalizing idx k with
  | nil => simp [List.get?] at hget
  | cons p rest ih =>
    cases k with
    | zero =>
      simp only [List.get?] at hget
      cases hget
      simp [registerPlugins, registrationEvents]
    | succ k2 =>
      have hp : p ≠ Plugin.invalid := by
        intro hcontra
        exact hbefore 0 (Nat.succ_pos k2) (by simp [List.get?, hcontra])
      have hget2 : rest.get? k2 = some Plugin.invalid := hget
      have hbefore2 : ∀ j, j < k2 → rest.get? j ≠ some Plugin.invalid := by
        intro j hj hcontra
        exact hbefore (j + 1) (by omega) hcontra
      cases p with
      | callable =>
        simp [registerPlugins, ih (idx + 1) k2 hget2 hbefore2, registrationEvents,
          registrationEvent]
      | applyable =>
        simp [registerPlugins, ih (idx + 1) k2 hget2 hbefore2, registrationEvents,
          registrationEvent]
      | invalid => exact absurd rfl hp

theorem construct_no_deprecate (options : WInput) (s : String) :
    Ev.deprecate s ∉ (construct options).2 := by
  intro hmem
  have h := construct_trace_construction options _ hmem
  simp [constructionEvent] at h

theorem create_no_run (options : WInput) (slowVerdict : Option JsError) (emitted : List String) :
    Ev.runCall ∉ (create options slowVerdict emitted).2.1 := by
  intro hmem
  rcases create_trace_shape options slowVerdict emitted _ hmem with h | h | h <;> cases h

theorem create_no_close (options : WInput) (slowVerdict : Option JsError) (emitted : List String) :
    Ev.closeCall ∉ (create options slowVerdict emitted).2.1 := by
  intro hmem
  rcases create_trace_shape options slowVerdict emitted _ hmem with h | h | h <;> cases h

theorem create_no_watch (options : WInput) (slowVerdict : Option JsError) (emitted : List String)
    (a : WatchArg) : Ev.watchCall a ∉ (create options slowVerdict emitted).2.1 := by
  intro hmem
  rcases create_trace_shape options slowVerdict emitted _ hmem with h | h | h <;> cases h

theorem create_no_watch_deprecation (options : WInput) (slowVerdict : Option JsError)
    (emitted : List String) :
    Ev.deprecate depWatchWithoutCallback ∉ (create options slowVerdict emitted).2.1 := by
  intro hmem
  rcases create_trace_shape options slowVerdict emitted _ hmem with h | h | h
  · cases h
  · cases h
  · rw [Ev.deprecate.injEq] at h
    exact absurd h (by decide)

/-! Claim theorems. -/

/-- C1: for every configuration on which `createCompiler` succeeds, the
factory pipeline runs in the exact order normalize, base defaults, Compiler
construction, environment plugin, user plugins, full defaults, `environment`
hook, `afterEnvironment` hook, option-derived plugins, `initialize` hook; the
three hooks each fire exactly once and in that order, and full defaults are
applied after every user plugin and before the `environment` hook. -/
theorem C1_factory_pipeline (cid : Nat) (o : WebpackOptions) (c : Compiler) (tr : List Ev)
    (h : createCompiler cid o = (Except.ok c, tr)) :
    ∃ reg : List Ev,
      tr = [Ev.normalize, Ev.baseDefaults, Ev.constructCompiler cid, Ev.nodeEnvironmentApply cid]
           ++ reg ++
           [Ev.fullDefaults, Ev.hookEnvironment cid, Ev.hookAfterEnvironment cid,
            Ev.optionsApplyProcess cid, Ev.hookInit cid] ∧
      (∀ e ∈ reg, (∃ i r a, e = Ev.pluginCallable i r a) ∨ (∃ i a, e = Ev.pluginApply i a)) ∧
      tr.count (Ev.hookEnvironment cid) = 1 ∧
      tr.count (Ev.hookAfterEnvironment cid) = 1 ∧
      tr.count (Ev.hookInit cid) = 1 := by
  have key : ∃ reg : List Ev, tr = preTrace cid ++ reg ++ postTrace cid ∧
      ∀ e ∈ reg, (∃ i r a, e = Ev.pluginCallable i r a) ∨ (∃ i a, e = Ev.pluginApply i a) := by
    cases hpf : o.pluginsField with
    | array l =>
      simp only [createCompiler, hpf] at h
      rcases hr : (registerPlugins cid 0 l).1 with e0 | u <;> rw [hr] at h
      · cases h
      · cases h
        exact ⟨(registerPlugins cid 0 l).2, rfl, registerPlugins_events cid 0 l⟩
    | absent =>
      simp only [createCompiler, hpf] at h
      cases h
      exact ⟨[], by simp, by simp⟩
    | nonArray =>
      simp only [createCompiler, hpf] at h
      cases h
      exact ⟨[], by simp, by simp⟩
  rcases key with ⟨reg, htr, hreg⟩
  refine ⟨reg, htr, hreg, ?_, ?_, ?_⟩ <;> subst htr
  · rw [List.count_append, List.count_append]
    have h1 : (preTrace cid).count (Ev.hookEnvironment cid) = 0 :=
      List.count_eq_zero.mpr (by simp [preTrace])
    have h2 : reg.count (Ev.hookEnvironment cid) = 0 := by
      refine List.count_eq_zero.mpr ?_
      intro hmem
      rcases hreg _ hmem with ⟨i, r, a, heq⟩ | ⟨i, a, heq⟩ <;> cases heq
    have h3 : (postTrace cid).count (Ev.hookEnvironment cid) = 1 := by
      simp [postTrace, List.count_cons]
    rw [h1, h2, h3]
  · rw [List.count_append, List.count_append]
    have h1 : (preTrace cid).count (Ev.hookAfterEnvironment cid) = 0 :=
      List.count_eq_zero.mpr (by simp [preTrace])
    have h2 : reg.count (Ev.hookAfterEnvironment cid) = 0 := by
      refine List.count_eq_zero.mpr ?_
      intro hmem
      rcases hreg _ hmem with ⟨i, r, a, heq⟩ | ⟨i, a, heq⟩ <;> cases heq
    have h3 : (postTrace cid).count (Ev.hookAfterEnvironment cid) = 1 := by
      simp [postTrace, List.count_cons]
    rw [h1, h2, h3]
  · rw [List.count_append, List.count_append]
    have h1 : (preTrace cid).count (Ev.hookInit cid) = 0 :=
      List.count_eq_zero.mpr (by simp [preTrace])
    have h2 : reg.count (Ev.hookInit cid) = 0 := by
      refine List.count_eq_zero.mpr ?_
      intro hmem
      rcases hreg _ hmem with ⟨i, r, a, heq⟩ | ⟨i, a, heq⟩ <;> cases heq
    have h3 : (postTrace cid).count (Ev.hookInit cid) = 1 := by
      simp [postTrace, List.count_cons]
    rw [h1, h2, h3]

/-- Witness for C1 at a concrete configuration with one callable plugin. -/
theorem C1_factory_pipeline_witness :
    ∃ reg : List Ev,
      ([Ev.normalize, Ev.baseDefaults, Ev.constructCompiler 0, Ev.nodeEnvironmentApply 0,
        Ev.pluginCallable 0 0 0, Ev.fullDefaults, Ev.hookEnvironment 0,
        Ev.hookAfterEnvironment 0, Ev.optionsApplyProcess 0, Ev.hookInit 0] : List Ev)
        = [Ev.normalize, Ev.baseDefaults, Ev.constructCompiler 0, Ev.nodeEnvironmentApply 0]
          ++ reg ++
          [Ev.fullDefaults, Ev.hookEnvironment 0, Ev.hookAfterEnvironment 0,
           Ev.optionsApplyProcess 0, Ev.hookInit 0] ∧
      (∀ e ∈ reg, (∃ i r a, e = Ev.pluginCallable i r a) ∨ (∃ i a, e = Ev.pluginApply i a)) ∧
      List.count (Ev.hookEnvironment 0)
        [Ev.normalize, Ev.baseDefaults, Ev.constructCompiler 0, Ev.nodeEnvironmentApply 0,
         Ev.pluginCallable 0 0 0, Ev.fullDefaults, Ev.hookEnvironment 0,
         Ev.hookAfterEnvironment 0, Ev.optionsApplyProcess 0, Ev.hookInit 0] = 1 ∧
      List.count (Ev.hookAfterEnvironment 0)
        [Ev.normalize, Ev.baseDefaults, Ev.constructCompiler 0, Ev.nodeEnvironmentApply 0,
         Ev.pluginCallable 0 0 0, Ev.fullDefaults, Ev.hookEnvironment 0,
         Ev.hookAfterEnvironment 0, Ev.optionsApplyProcess 0, Ev.hookInit 0] = 1 ∧
      List.count (Ev.hookInit 0)
        [Ev.normalize, Ev.baseDefaults, Ev.constructCompiler 0, Ev.nodeEnvironmentApply 0,
         Ev.pluginCallable 0 0 0, Ev.fullDefaults, Ev.hookEnvironment 0,
         Ev.hookAfterEnvironment 0, Ev.optionsApplyProcess 0, Ev.hookInit 0] = 1 :=
  C1_factory_pipeline 0
    { pluginsField := PluginsField.array [Plugin.callable], watch := false,
      watchOptions := none, dependencies := none, fastCheckOk := true }
    { id := 0,
      options :=
        { pluginsField := PluginsField.array [Plugin.callable], watch := false,
          watchOptions := none, dependencies := none, fastCheckOk := true } }
    [Ev.normalize, Ev.baseDefaults, Ev.constructCompiler 0, Ev.nodeEnvironmentApply 0,
     Ev.pluginCallable 0 0 0, Ev.fullDefaults, Ev.hookEnvironment 0,
     Ev.hookAfterEnvironment 0, Ev.optionsApplyProcess 0, Ev.hookInit 0]
    (by rfl)

/-- C5: for every configuration whose plugins field is an array (of plugins
of the two valid shapes), `createCompiler` processes the plugins one at a
time in declared order: a callable plugin is invoked with the compiler as
both implicit receiver and explicit sole argument, any other through its
`apply` operation with the compiler as argument; the i-th registration event
corresponds to the i-th plugin, so each registration completes before the
next registers. -/
theorem C5_plugin_order (cid : Nat) (o : WebpackOptions) (l : List Plugin)
    (hp : o.pluginsField = PluginsField.array l)
    (hv : ∀ p ∈ l, p ≠ Plugin.invalid) :
    createCompiler cid o =
      (Except.ok { id := cid, options := o },
       preTrace cid ++ registrationEvents cid 0 l ++ postTrace cid) ∧
    ∀ i : Nat, (registrationEvents cid 0 l).get? i
        = (l.get? i).map (fun p => registrationEvent cid i p) := by
  constructor
  · simp only [createCompiler, hp, registerPlugins_ok cid 0 l hv]
  · intro i
    have h := registrationEvents_get cid 0 l i
    simpa using h

/-- Witness for C5 at a concrete two-plugin configuration. -/
theorem C5_plugin_order_witness :
    createCompiler 7
      { pluginsField := PluginsField.array [Plugin.callable, Plugin.applyable], watch := false,
        watchOptions := none, dependencies := none, fastCheckOk := true } =
      (Except.ok
        { id := 7,
          options :=
            { pluginsField := PluginsField.array [Plugin.callable, Plugin.applyable],
              watch := false, watchOptions := none, dependencies := none, fastCheckOk := true } },
       preTrace 7 ++ registrationEvents 7 0 [Plugin.callable, Plugin.applyable] ++ postTrace 7) ∧
    ∀ i : Nat, (registrationEvents 7 0 [Plugin.callable, Plugin.applyable]).get? i
        = (([Plugin.callable, Plugin.applyable] : List Plugin).get? i).map
            (fun p => registrationEvent 7 i p) :=
  C5_plugin_order 7
    { pluginsField := PluginsField.array [Plugin.callable, Plugin.applyable], watch := false,
      watchOptions := none, dependencies := none, fastCheckOk := true }
    [Plugin.callable, Plugin.applyable] rfl
    (by intro p hp; fin_cases hp <;> simp)

/-- C6 counterexample: on a plugin list whose element at index 0 is neither
callable nor exposes `apply`, registration fails with the JavaScript
TypeError raised by invoking `plugin.apply`, not with an InvalidPluginError
naming the offending index 0; the subsequent callable plugin at index 1 is
indeed never invoked. -/
theorem C6_invalid_plugin_counterexample :
    (createCompiler 0
      { pluginsField := PluginsField.array [Plugin.invalid, Plugin.callable], watch := false,
        watchOptions := none, dependencies := none, fastCheckOk := true }).1
      = Except.error (JsError.typeError "plugin.apply is not a function") ∧
    (createCompiler 0
      { pluginsField := PluginsField.array [Plugin.invalid, Plugin.callable], watch := false,
        watchOptions := none, dependencies := none, fastCheckOk := true }).1
      ≠ Except.error (JsError.invalidPluginError 0) ∧
    Ev.pluginCallable 1 0 0 ∉
      (createCompiler 0
        { pluginsField := PluginsField.array [Plugin.invalid, Plugin.callable], watch := false,
          watchOptions := none, dependencies := none, fastCheckOk := true }).2 := by
  refine ⟨rfl, ?_, by decide⟩
  intro hcontra
  cases hcontra

/-- C6 as amended: for every plugin list whose first element of invalid shape
sits at index k, registration fails with the TypeError raised by invoking
`plugin.apply` on it — an error that names no index and is not an
InvalidPluginError — and exactly the plugins before index k are registered,
none after. -/
theorem C6_invalid_plugin_amended (cid : Nat) (o : WebpackOptions) (l : List Plugin) (k : Nat)
    (hp : o.pluginsField = PluginsField.array l)
    (hinv : l.get? k = some Plugin.invalid)
    (hbefore : ∀ j, j < k → l.get? j ≠ some Plugin.invalid) :
    (createCompiler cid o).1
      = Except.error (JsError.typeError "plugin.apply is not a function") ∧
    (∀ i, (createCompiler cid o).1 ≠ Except.error (JsError.invalidPluginError i)) ∧
    (createCompiler cid o).2 = preTrace cid ++ registrationEvents cid 0 (l.take k) := by
  have hreg := registerPlugins_first_invalid cid 0 l k hinv hbefore
  refine ⟨?_, ?_, ?_⟩
  · simp only [createCompiler, hp, hreg]
  · intro i hcontra
    simp only [createCompiler, hp, hreg] at hcontra
    cases hcontra
  · simp only [createCompiler, hp, hreg]

/-- Witness for the amended C6: invalid plugin at index 1 after an applyable
one. -/
theorem C6_invalid_plugin_amended_witness :
    (createCompiler 0
      { pluginsField := PluginsField.array [Plugin.applyable, Plugin.invalid, Plugin.callable],
        watch := false, watchOptions := none, dependencies := none, fastCheckOk := true }).1
      = Except.error (JsError.typeError "plugin.apply is not a function") ∧
    (∀ i, (createCompiler 0
      { pluginsField := PluginsField.array [Plugin.applyable, Plugin.invalid, Plugin.callable],
        watch := false, watchOptions := none, dependencies := none, fastCheckOk := true }).1
        ≠ Except.error (JsError.invalidPluginError i)) ∧
    (createCompiler 0
      { pluginsField := PluginsField.array [Plugin.applyable, Plugin.invalid, Plugin.callable],
        watch := false, watchOptions := none, dependencies := none, fastCheckOk := true }).2
      = preTrace 0 ++ registrationEvents 0 0
          (([Plugin.applyable, Plugin.invalid, Plugin.callable] : List Plugin).take 1) :=
  C6_invalid_plugin_amended 0
    { pluginsField := PluginsField.array [Plugin.applyable, Plugin.invalid, Plugin.callable],
      watch := false, watchOptions := none, dependencies := none, fastCheckOk := true }
    [Plugin.applyable, Plugin.invalid, Plugin.callable] 1 rfl (by rfl)
    (by intro j hj; interval_cases j; decide)

/-- C10: for every configuration whose plugins field is absent or a non-array
value, `createCompiler` skips plugin registration entirely — no plugin is
invoked, no error is raised — and the rest of the pipeline runs exactly as
with an empty plugin list. -/
theorem C10_skip_nonarray_plugins (cid : Nat) (o : WebpackOptions)
    (h : o.pluginsField = PluginsField.absent ∨ o.pluginsField = PluginsField.nonArray) :
    createCompiler cid o
      = (Except.ok { id := cid, options := o }, preTrace cid ++ postTrace cid) ∧
    (∀ i r a, Ev.pluginCallable i r a ∉ (createCompiler cid o).2) ∧
    (∀ i a, Ev.pluginApply i a ∉ (createCompiler cid o).2) ∧
    (createCompiler cid o).2
      = (createCompiler cid { o with pluginsField := PluginsField.array [] }).2 := by
  have hmain : createCompiler cid o
      = (Except.ok { id := cid, options := o }, preTrace cid ++ postTrace cid) := by
    rcases h with h | h <;> simp [createCompiler, h]
  refine ⟨hmain, ?_, ?_, ?_⟩
  · intro i r a hmem
    rw [hmain] at hmem
    simp [preTrace, postTrace] at hmem
  · intro i a hmem
    rw [hmain] at hmem
    simp [preTrace, postTrace] at hmem
  · rw [hmain]
    simp [createCompiler, registerPlugins]

/-- Witness for C10 at a concrete configuration with a non-array plugins
field. -/
theorem C10_skip_nonarray_plugins_witness :
    createCompiler 3
      { pluginsField := PluginsField.nonArray, watch := false, watchOptions := none,
        dependencies := none, fastCheckOk := true }
      = (Except.ok
          { id := 3,
            options :=
              { pluginsField := PluginsField.nonArray, watch := false, watchOptions := none,
                dependencies := none, fastCheckOk := true } },
         preTrace 3 ++ postTrace 3) ∧
    (∀ i r a, Ev.pluginCallable i r a ∉
      (createCompiler 3
        { pluginsField := PluginsField.nonArray, watch := false, watchOptions := none,
          dependencies := none, fastCheckOk := true }).2) ∧
    (∀ i a, Ev.pluginApply i a ∉
      (createCompiler 3
        { pluginsField := PluginsField.nonArray, watch := false, watchOptions := none,
          dependencies := none, fastCheckOk := true }).2) ∧
    (createCompiler 3
      { pluginsField := PluginsField.nonArray, watch := false, watchOptions := none,
        dependencies := none, fastCheckOk := true }).2
      = (createCompiler 3
          { pluginsField := PluginsField.array [], watch := false, watchOptions := none,
            dependencies := none, fastCheckOk := true }).2 :=
  C10_skip_nonarray_plugins 3
    { pluginsField := PluginsField.nonArray, watch := false, watchOptions := none,
      dependencies := none, fastCheckOk := true }
    (Or.inr rfl)

/-- C7: `createMultiCompiler` invokes `createCompiler` on each configuration
in order (children keep the input order and are numbered consecutively); if
any child creation throws, the whole multi build aborts with an error and no
MultiCompiler is returned; on success the dependency graph holds exactly the
edges from each child with a declared dependencies list to its named peers,
so children without declared dependencies contribute no edges. -/
theorem C7_multi_compiler (l : List WebpackOptions) :
    ((∃ o ∈ l, createCompilerThrows o = true) → isErr (createMultiCompiler l).1 = true) ∧
    (∀ m, (createMultiCompiler l).1 = Except.ok m →
      m.children.map (fun c => c.options) = l ∧
      m.children.map (fun c => c.id) = List.range' 0 l.length ∧
      (∀ cid name, (cid, name) ∈ m.edges ↔
        ∃ c ∈ m.children, c.id = cid ∧
          ∃ deps, c.options.dependencies = some deps ∧ name ∈ deps)) := by
  constructor
  · intro h
    have herr := mapCreateCompilers_err 0 l h
    simp only [createMultiCompiler]
    rcases hr : (mapCreateCompilers 0 l).1 with e0 | cs
    · simp [isErr]
    · rw [hr] at herr
      simp [isErr] at herr
  · intro m hm
    simp only [createMultiCompiler] at hm
    rcases hr : (mapCreateCompilers 0 l).1 with e0 | cs <;> rw [hr] at hm
    · cases hm
    · cases hm
      rcases mapCreateCompilers_ok 0 l cs hr with ⟨ho, hi⟩
      exact ⟨ho, hi, fun cid name => dependencyEdges_mem cs cid name⟩

/-- Witness for C7: two configurations, the second declaring a dependency on
the first by name. -/
theorem C7_multi_compiler_witness :
    ((∃ o ∈ ([{ pluginsField := PluginsField.absent, watch := false, watchOptions := none,
                dependencies := none, fastCheckOk := true },
              { pluginsField := PluginsField.absent, watch := false, watchOptions := none,
                dependencies := some ["a"], fastCheckOk := true }] : List WebpackOptions),
        createCompilerThrows o = true) →
      isErr (createMultiCompiler
        [{ pluginsField := PluginsField.absent, watch := false, watchOptions := none,
           dependencies := none, fastCheckOk := true },
         { pluginsField := PluginsField.absent, watch := false, watchOptions := none,
           dependencies := some ["a"], fastCheckOk := true }]).1 = true) ∧
    (∀ m, (createMultiCompiler
        [{ pluginsField := PluginsField.absent, watch := false, watchOptions := none,
           dependencies := none, fastCheckOk := true },
         { pluginsField := PluginsField.absent, watch := false, watchOptions := none,
           dependencies := some ["a"], fastCheckOk := true }]).1 = Except.ok m →
      m.children.map (fun c => c.options)
        = [{ pluginsField := PluginsField.absent, watch := false, watchOptions := none,
             dependencies := none, fastCheckOk := true },
           { pluginsField := PluginsField.absent, watch := false, watchOptions := none,
             dependencies := some ["a"], fastCheckOk := true }] ∧
      m.children.map (fun c => c.id) = List.range' 0 2 ∧
      (∀ cid name, (cid, name) ∈ m.edges ↔
        ∃ c ∈ m.children, c.id = cid ∧
          ∃ deps, c.options.dependencies = some deps ∧ name ∈ deps)) :=
  C7_multi_compiler
    [{ pluginsField := PluginsField.absent, watch := false, watchOptions := none,
       dependencies := none, fastCheckOk := true },
     { pluginsField := PluginsField.absent, watch := false, watchOptions := none,
       dependencies := some ["a"], fastCheckOk := true }]

/-- C2: the entry operation first checks the fast precompiled predicate on
every configuration of the set; when all pass the slow validator never runs;
when one fails, the slow validator runs on the whole options value: when it
raises, the build fails with that error and no compiler is constructed, and
when it finds no problem the one-time discrepancy diagnostic is emitted (at
most once per process) and construction continues with the original
options. -/
theorem C2_schema_gate (options : WInput) (slowVerdict : Option JsError)
    (emitted : List String) :
    ((asArray options).all (fun o => o.fastCheckOk) = true →
      create options slowVerdict emitted
        = ((construct options).1, (construct options).2, emitted) ∧
      Ev.slowValidate ∉ (create options slowVerdict emitted).2.1) ∧
    ((asArray options).all (fun o => o.fastCheckOk) = false →
      Ev.slowValidate ∈ (create options slowVerdict emitted).2.1 ∧
      (∀ e, slowVerdict = some e →
        (create options slowVerdict emitted).1 = Except.error e ∧
        (create options slowVerdict emitted).2.1 = [Ev.slowValidate] ∧
        (∀ cid, Ev.constructCompiler cid ∉ (create options slowVerdict emitted).2.1)) ∧
      (slowVerdict = none →
        (create options slowVerdict emitted).1 = (construct options).1 ∧
        (create options slowVerdict emitted).2.1
          = Ev.slowValidate :: (deprecateOnce depPreCompiledSchemaInvalid emitted).1
              ++ (construct options).2 ∧
        ((create options slowVerdict emitted).2.1).count
            (Ev.deprecate depPreCompiledSchemaInvalid)
          = (if depPreCompiledSchemaInvalid ∈ emitted then 0 else 1))) := by
  constructor
  · intro hall
    constructor
    · simp [create, hall]
    · intro hmem
      simp only [create, hall, if_true] at hmem
      have h := construct_trace_construction options _ hmem
      simp [constructionEvent] at h
  · intro hall
    have hall2 : ¬((asArray options).all (fun o => o.fastCheckOk) = true) := by
      rw [hall]; exact Bool.false_ne_true
    refine ⟨?_, ?_, ?_⟩
    · simp only [create, if_neg hall2]
      cases slowVerdict with
      | some err => simp
      | none => simp
    · intro e he
      subst he
      refine ⟨by simp [create, hall2], by simp [create, hall2], ?_⟩
      intro cid hmem
      simp only [create, if_neg hall2, List.mem_singleton] at hmem
      cases hmem
    · intro he
      subst he
      refine ⟨by simp [create, hall2], by simp [create, hall2], ?_⟩
      have htr : (create options none emitted).2.1
          = Ev.slowValidate :: (deprecateOnce depPreCompiledSchemaInvalid emitted).1
              ++ (construct options).2 := by
        simp [create, hall2]
      rw [htr]
      have hc0 : ((construct options).2).count (Ev.deprecate depPreCompiledSchemaInvalid) = 0 :=
        List.count_eq_zero.mpr (construct_no_deprecate options depPreCompiledSchemaInvalid)
      by_cases hmem : depPreCompiledSchemaInvalid ∈ emitted
      · simp [deprecateOnce, hmem, List.count_cons, List.count_append, hc0]
      · simp [deprecateOnce, hmem, List.count_cons, List.count_append, hc0]

/-- Witness for C2 at a concrete scalar configuration failing the fast
predicate, with a passing slow validator. -/
theorem C2_schema_gate_witness :
    ((asArray (WInput.single
        { pluginsField := PluginsField.absent, watch := false, watchOptions := none,
          dependencies := none, fastCheckOk := false })).all (fun o => o.fastCheckOk) = true →
      create (WInput.single
          { pluginsField := PluginsField.absent, watch := false, watchOptions := none,
            dependencies := none, fastCheckOk := false }) none []
        = ((construct (WInput.single
              { pluginsField := PluginsField.absent, watch := false, watchOptions := none,
                dependencies := none, fastCheckOk := false })).1,
           (construct (WInput.single
              { pluginsField := PluginsField.absent, watch := false, watchOptions := none,
                dependencies := none, fastCheckOk := false })).2, []) ∧
      Ev.slowValidate ∉ (create (WInput.single
          { pluginsField := PluginsField.absent, watch := false, watchOptions := none,
            dependencies := none, fastCheckOk := false }) none []).2.1) ∧
    ((asArray (WInput.single
        { pluginsField := PluginsField.absent, watch := false, watchOptions := none,
          dependencies := none, fastCheckOk := false })).all (fun o => o.fastCheckOk) = false →
      Ev.slowValidate ∈ (create (WInput.single
          { pluginsField := PluginsField.absent, watch := false, watchOptions := none,
            dependencies := none, fastCheckOk := false }) none []).2.1 ∧
      (∀ e, (none : Option JsError) = some e →
        (create (WInput.single
            { pluginsField := PluginsField.absent, watch := false, watchOptions := none,
              dependencies := none, fastCheckOk := false }) none []).1 = Except.error e ∧
        (create (WInput.single
            { pluginsField := PluginsField.absent, watch := false, watchOptions := none,
              dependencies := none, fastCheckOk := false }) none []).2.1 = [Ev.slowValidate] ∧
        (∀ cid, Ev.constructCompiler cid ∉ (create (WInput.single
            { pluginsField := PluginsField.absent, watch := false, watchOptions := none,
              dependencies := none, fastCheckOk := false }) none []).2.1)) ∧
      ((none : Option JsError) = none →
        (create (WInput.single
            { pluginsField := PluginsField.absent, watch := false, watchOptions := none,
              dependencies := none, fastCheckOk := false }) none []).1
          = (construct (WInput.single
              { pluginsField := PluginsField.absent, watch := false, watchOptions := none,
                dependencies := none, fastCheckOk := false })).1 ∧
        (create (WInput.single
            { pluginsField := PluginsField.absent, watch := false, watchOptions := none,
              dependencies := none, fastCheckOk := false }) none []).2.1
          = Ev.slowValidate :: (deprecateOnce depPreCompiledSchemaInvalid []).1
              ++ (construct (WInput.single
                  { pluginsField := PluginsField.absent, watch := false, watchOptions := none,
                    dependencies := none, fastCheckOk := false })).2 ∧
        ((create (WInput.single
            { pluginsField := PluginsField.absent, watch := false, watchOptions := none,
              dependencies := none, fastCheckOk := false }) none []).2.1).count
            (Ev.deprecate depPreCompiledSchemaInvalid)
          = (if depPreCompiledSchemaInvalid ∈ ([] : List String) then 0 else 1))) :=
  C2_schema_gate (WInput.single
    { pluginsField := PluginsField.absent, watch := false, watchOptions := none,
      dependencies := none, fastCheckOk := false }) none []

/-- C3: for every scalar configuration with a falsy watch flag and a supplied
callback, once construction succeeds the entry operation invokes `run`, then
always invokes `close`, and the completion callback receives as error
`runErr || closeErr` — the run error when present, else the close error —
paired with the run's stats (which may be absent). -/
theorem C3_run_close_chain (o : WebpackOptions) (slowVerdict : Option JsError)
    (ext : RunCloseBehavior) (emitted : List String) (cr : CreateResult)
    (hw : o.watch = false)
    (hok : (create (WInput.single o) slowVerdict emitted).1 = Except.ok cr) :
    (webpack (WInput.single o) true slowVerdict ext emitted).1
      = Except.ok (some cr.compiler) ∧
    (webpack (WInput.single o) true slowVerdict ext emitted).2.1
      = (create (WInput.single o) slowVerdict emitted).2.1
        ++ [Ev.runCall, Ev.closeCall,
            Ev.callbackInvoke (jsOr ext.runErr ext.closeErr) ext.runStats] ∧
    (∀ e, ext.runErr = some e → jsOr ext.runErr ext.closeErr = some e) ∧
    (ext.runErr = none → jsOr ext.runErr ext.closeErr = ext.closeErr) := by
  have hwf : cr.watch = false := by
    have h1 := (create_ok_watch _ _ _ _ hok).1
    rw [h1]
    exact hw
  refine ⟨?_, ?_, ?_, ?_⟩
  · simp [webpack, hok, hwf]
  · simp [webpack, hok, hwf]
  · intro e he
    rw [he]
    rfl
  · intro he
    rw [he]
    rfl

/-- Witness for C3 at a concrete non-watching configuration whose run
reports an error. -/
theorem C3_run_close_chain_witness :
    (webpack (WInput.single
        { pluginsField := PluginsField.absent, watch := false, watchOptions := none,
          dependencies := none, fastCheckOk := true }) true none
        { runErr := some (JsError.validationError "boom"), runStats := none,
          closeErr := none } []).1
      = Except.ok (some (CompilerHandle.single
          { id := 0,
            options :=
              { pluginsField := PluginsField.absent, watch := false, watchOptions := none,
                dependencies := none, fastCheckOk := true } })) ∧
    (webpack (WInput.single
        { pluginsField := PluginsField.absent, watch := false, watchOptions := none,
          dependencies := none, fastCheckOk := true }) true none
        { runErr := some (JsError.validationError "boom"), runStats := none,
          closeErr := none } []).2.1
      = (create (WInput.single
          { pluginsField := PluginsField.absent, watch := false, watchOptions := none,
            dependencies := none, fastCheckOk := true }) none []).2.1
        ++ [Ev.runCall, Ev.closeCall,
            Ev.callbackInvoke
              (jsOr (some (JsError.validationError "boom")) none) none] ∧
    (∀ e, (some (JsError.validationError "boom") : Option JsError) = some e →
      jsOr (some (JsError.validationError "boom")) none = some e) ∧
    ((some (JsError.validationError "boom") : Option JsError) = none →
      jsOr (some (JsError.validationError "boom")) none = none) :=
  C3_run_close_chain
    { pluginsField := PluginsField.absent, watch := false, watchOptions := none,
      dependencies := none, fastCheckOk := true } none
    { runErr := some (JsError.validationError "boom"), runStats := none, closeErr := none }
    []
    { compiler := CompilerHandle.single
        { id := 0,
          options :=
            { pluginsField := PluginsField.absent, watch := false, watchOptions := none,
              dependencies := none, fastCheckOk := true } },
      watch := false, watchOptions := WatchArg.single WatchOpts.empty }
    rfl (by rfl)

/-- C4: for every input on which construction throws, with a callback the
error is not thrown synchronously but delivered to the callback on the next
scheduling tick and the entry operation returns null; without a callback the
error propagates synchronously to the caller. -/
theorem C4_deferred_construction_error (options : WInput) (slowVerdict : Option JsError)
    (ext : RunCloseBehavior) (emitted : List String) (e : JsError)
    (h : (create options slowVerdict emitted).1 = Except.error e) :
    (webpack options true slowVerdict ext emitted).1 = Except.ok none ∧
    (webpack options true slowVerdict ext emitted).2.1
      = (create options slowVerdict emitted).2.1 ++ [Ev.nextTickCallbackInvoke e] ∧
    (webpack options false slowVerdict ext emitted).1 = Except.error e := by
  refine ⟨?_, ?_, ?_⟩ <;> simp [webpack, h]

/-- Witness for C4 at a concrete configuration failing both validators. -/
theorem C4_deferred_construction_error_witness :
    (webpack (WInput.single
        { pluginsField := PluginsField.absent, watch := false, watchOptions := none,
          dependencies := none, fastCheckOk := false }) true
        (some (JsError.validationError "invalid configuration"))
        { runErr := none, runStats := none, closeErr := none } []).1 = Except.ok none ∧
    (webpack (WInput.single
        { pluginsField := PluginsField.absent, watch := false, watchOptions := none,
          dependencies := none, fastCheckOk := false }) true
        (some (JsError.validationError "invalid configuration"))
        { runErr := none, runStats := none, closeErr := none } []).2.1
      = (create (WInput.single
          { pluginsField := PluginsField.absent, watch := false, watchOptions := none,
            dependencies := none, fastCheckOk := false })
          (some (JsError.validationError "invalid configuration")) []).2.1
        ++ [Ev.nextTickCallbackInvoke (JsError.validationError "invalid configuration")] ∧
    (webpack (WInput.single
        { pluginsField := PluginsField.absent, watch := false, watchOptions := none,
          dependencies := none, fastCheckOk := false }) false
        (some (JsError.validationError "invalid configuration"))
        { runErr := none, runStats := none, closeErr := none } []).1
      = Except.error (JsError.validationError "invalid configuration") :=
  C4_deferred_construction_error (WInput.single
    { pluginsField := PluginsField.absent, watch := false, watchOptions := none,
      dependencies := none, fastCheckOk := false })
    (some (JsError.validationError "invalid configuration"))
    { runErr := none, runStats := none, closeErr := none } []
    (JsError.validationError "invalid configuration") (by rfl)

/-- C8: with a callback, watch mode is entered iff the input's watch flag
resolves to true — for an array, iff some element's flag is true; for a
scalar, iff its own flag is true — and `watch` is then invoked with the
per-child watch options list (element `watchOptions` or the empty value)
resp. the scalar's own watch options (or the empty value), together with the
callback. -/
theorem C8_watch_decision (options : WInput) (slowVerdict : Option JsError)
    (ext : RunCloseBehavior) (emitted : List String) (cr : CreateResult)
    (hok : (create options slowVerdict emitted).1 = Except.ok cr) :
    cr.watch = expectedWatch options ∧
    cr.watchOptions = expectedWatchArg options ∧
    (expectedWatch options = true →
      (webpack options true slowVerdict ext emitted).2.1
        = (create options slowVerdict emitted).2.1
          ++ [Ev.watchCall (expectedWatchArg options)]) ∧
    (expectedWatch options = false →
      ∀ a, Ev.watchCall a ∉ (webpack options true slowVerdict ext emitted).2.1) := by
  rcases create_ok_watch options slowVerdict emitted cr hok with ⟨h1, h2⟩
  refine ⟨h1, h2, ?_, ?_⟩
  · intro hwt
    have hw : cr.watch = true := by rw [h1, hwt]
    simp [webpack, hok, hw, h2]
  · intro hwf a hmem
    have hw : cr.watch = false := by rw [h1, hwf]
    simp only [webpack, if_true, hok, hw, Bool.false_eq_true, if_false] at hmem
    rcases List.mem_append.mp hmem with h | h
    · exact create_no_watch options slowVerdict emitted a h
    · simp at h

/-- Witness for C8: a two-element array whose second element watches. -/
theorem C8_watch_decision_witness :
    ({ compiler := CompilerHandle.multi
         { children :=
             [{ id := 0,
                options :=
                  { pluginsField := PluginsField.absent, watch := false, watchOptions := none,
                    dependencies := none, fastCheckOk := true } },
              { id := 1,
                options :=
                  { pluginsField := PluginsField.absent, watch := true,
                    watchOptions := some (WatchOpts.value 5), dependencies := none,
                    fastCheckOk := true } }],
           edges := [] },
       watch := true,
       watchOptions := WatchArg.perChild [WatchOpts.empty, WatchOpts.value 5] }
        : CreateResult).watch
      = expectedWatch (WInput.multi
          [{ pluginsField := PluginsField.absent, watch := false, watchOptions := none,
             dependencies := none, fastCheckOk := true },
           { pluginsField := PluginsField.absent, watch := true,
             watchOptions := some (WatchOpts.value 5), dependencies := none,
             fastCheckOk := true }]) ∧
    ({ compiler := CompilerHandle.multi
         { children :=
             [{ id := 0,
                options :=
                  { pluginsField := PluginsField.absent, watch := false, watchOptions := none,
                    dependencies := none, fastCheckOk := true } },
              { id := 1,
                options :=
                  { pluginsField := PluginsField.absent, watch := true,
                    watchOptions := some (WatchOpts.value 5), dependencies := none,
                    fastCheckOk := true } }],
           edges := [] },
       watch := true,
       watchOptions := WatchArg.perChild [WatchOpts.empty, WatchOpts.value 5] }
        : CreateResult).watchOptions
      = expectedWatchArg (WInput.multi
          [{ pluginsField := PluginsField.absent, watch := false, watchOptions := none,
             dependencies := none, fastCheckOk := true },
           { pluginsField := PluginsField.absent, watch := true,
             watchOptions := some (WatchOpts.value 5), dependencies := none,
             fastCheckOk := true }]) ∧
    (expectedWatch (WInput.multi
        [{ pluginsField := PluginsField.absent, watch := false, watchOptions := none,
           dependencies := none, fastCheckOk := true },
         { pluginsField := PluginsField.absent, watch := true,
           watchOptions := some (WatchOpts.value 5), dependencies := none,
           fastCheckOk := true }]) = true →
      (webpack (WInput.multi
          [{ pluginsField := PluginsField.absent, watch := false, watchOptions := none,
             dependencies := none, fastCheckOk := true },
           { pluginsField := PluginsField.absent, watch := true,
             watchOptions := some (WatchOpts.value 5), dependencies := none,
             fastCheckOk := true }]) true none
          { runErr := none, runStats := none, closeErr := none } []).2.1
        = (create (WInput.multi
            [{ pluginsField := PluginsField.absent, watch := false, watchOptions := none,
               dependencies := none, fastCheckOk := true },
             { pluginsField := PluginsField.absent, watch := true,
               watchOptions := some (WatchOpts.value 5), dependencies := none,
               fastCheckOk := true }]) none []).2.1
          ++ [Ev.watchCall (expectedWatchArg (WInput.multi
              [{ pluginsField := PluginsField.absent, watch := false, watchOptions := none,
                 dependencies := none, fastCheckOk := true },
               { pluginsField := PluginsField.absent, watch := true,
                 watchOptions := some (WatchOpts.value 5), dependencies := none,
                 fastCheckOk := true }]))]) ∧
    (expectedWatch (WInput.multi
        [{ pluginsField := PluginsField.absent, watch := false, watchOptions := none,
           dependencies := none, fastCheckOk := true },
         { pluginsField := PluginsField.absent, watch := true,
           watchOptions := some (WatchOpts.value 5), dependencies := none,
           fastCheckOk := true }]) = false →
      ∀ a, Ev.watchCall a ∉
        (webpack (WInput.multi
            [{ pluginsField := PluginsField.absent, watch := false, watchOptions := none,
               dependencies := none, fastCheckOk := true },
             { pluginsField := PluginsField.absent, watch := true,
               watchOptions := some (WatchOpts.value 5), dependencies := none,
               fastCheckOk := true }]) true none
            { runErr := none, runStats := none, closeErr := none } []).2.1) :=
  C8_watch_decision (WInput.multi
    [{ pluginsField := PluginsField.absent, watch := false, watchOptions := none,
       dependencies := none, fastCheckOk := true },
     { pluginsField := PluginsField.absent, watch := true,
       watchOptions := some (WatchOpts.value 5), dependencies := none,
       fastCheckOk := true }]) none
    { runErr := none, runStats := none, closeErr := none } []
    { compiler := CompilerHandle.multi
        { children :=
            [{ id := 0,
               options :=
                 { pluginsField := PluginsField.absent, watch := false, watchOptions := none,
                   dependencies := none, fastCheckOk := true } },
             { id := 1,
               options :=
                 { pluginsField := PluginsField.absent, watch := true,
                   watchOptions := some (WatchOpts.value 5), dependencies := none,
                   fastCheckOk := true } }],
          edges := [] },
      watch := true,
      watchOptions := WatchArg.perChild [WatchOpts.empty, WatchOpts.value 5] }
    (by rfl)

/-- C9: without a callback, when the watch flag resolves to true the entry
operation emits the watch-without-callback diagnostic (at most once per
process) and still returns the constructed compiler with neither run, close
nor watch started; with watch false it returns the compiler with no
diagnostic and nothing started. -/
theorem C9_watch_without_callback (options : WInput) (slowVerdict : Option JsError)
    (ext : RunCloseBehavior) (emitted : List String) (cr : CreateResult)
    (hok : (create options slowVerdict emitted).1 = Except.ok cr) :
    (expectedWatch options = true →
      (webpack options false slowVerdict ext emitted).1 = Except.ok (some cr.compiler) ∧
      (webpack options false slowVerdict ext emitted).2.1
        = (create options slowVerdict emitted).2.1
          ++ (deprecateOnce depWatchWithoutCallback
              (create options slowVerdict emitted).2.2).1 ∧
      ((webpack options false slowVerdict ext emitted).2.1).count
          (Ev.deprecate depWatchWithoutCallback)
        = (if depWatchWithoutCallback ∈ (create options slowVerdict emitted).2.2
           then 0 else 1) ∧
      Ev.runCall ∉ (webpack options false slowVerdict ext emitted).2.1 ∧
      Ev.closeCall ∉ (webpack options false slowVerdict ext emitted).2.1 ∧
      (∀ a, Ev.watchCall a ∉ (webpack options false slowVerdict ext emitted).2.1)) ∧
    (expectedWatch options = false →
      (webpack options false slowVerdict ext emitted).1 = Except.ok (some cr.compiler) ∧
      (webpack options false slowVerdict ext emitted).2.1
        = (create options slowVerdict emitted).2.1 ∧
      Ev.deprecate depWatchWithoutCallback
        ∉ (webpack options false slowVerdict ext emitted).2.1 ∧
      Ev.runCall ∉ (webpack options false slowVerdict ext emitted).2.1 ∧
      Ev.closeCall ∉ (webpack options false slowVerdict ext emitted).2.1 ∧
      (∀ a, Ev.watchCall a ∉ (webpack options false slowVerdict ext emitted).2.1)) := by
  have h1 := (create_ok_watch options slowVerdict emitted cr hok).1
  constructor
  · intro hwt
    have hw : cr.watch = true := by rw [h1, hwt]
    have htr : (webpack options false slowVerdict ext emitted).2.1
        = (create options slowVerdict emitted).2.1
          ++ (deprecateOnce depWatchWithoutCallback
              (create options slowVerdict emitted).2.2).1 := by
      simp [webpack, hok, hw]
    refine ⟨by simp [webpack, hok, hw], htr, ?_, ?_, ?_, ?_⟩
    · rw [htr, List.count_append]
      have hc0 : ((create options slowVerdict emitted).2.1).count
          (Ev.deprecate depWatchWithoutCallback) = 0 :=
        List.count_eq_zero.mpr (create_no_watch_deprecation options slowVerdict emitted)
      rw [hc0]
      by_cases hmem : depWatchWithoutCallback ∈ (create options slowVerdict emitted).2.2
      · simp [deprecateOnce, hmem]
      · simp [deprecateOnce, hmem]
    · rw [htr]
      intro hmem
      rcases List.mem_append.mp hmem with h | h
      · exact create_no_run options slowVerdict emitted h
      · simp only [deprecateOnce] at h
        by_cases hmem2 : depWatchWithoutCallback ∈ (create options slowVerdict emitted).2.2 <;>
          simp [hmem2] at h
    · rw [htr]
      intro hmem
      rcases List.mem_append.mp hmem with h | h
      · exact create_no_close options slowVerdict emitted h
      · simp only [deprecateOnce] at h
        by_cases hmem2 : depWatchWithoutCallback ∈ (create options slowVerdict emitted).2.2 <;>
          simp [hmem2] at h
    · intro a
      rw [htr]
      intro hmem
      rcases List.mem_append.mp hmem with h | h
      · exact create_no_watch options slowVerdict emitted a h
      · simp only [deprecateOnce] at h
        by_cases hmem2 : depWatchWithoutCallback ∈ (create options slowVerdict emitted).2.2 <;>
          simp [hmem2] at h
  · intro hwf
    have hw : cr.watch = false := by rw [h1, hwf]
    have htr : (webpack options false slowVerdict ext emitted).2.1
        = (create options slowVerdict emitted).2.1 := by
      simp [webpack, hok, hw]
    refine ⟨by simp [webpack, hok, hw], htr, ?_, ?_, ?_, ?_⟩
    · rw [htr]
      exact create_no_watch_deprecation options slowVerdict emitted
    · rw [htr]
      exact create_no_run options slowVerdict emitted
    · rw [htr]
      exact create_no_close options slowVerdict emitted
    · intro a
      rw [htr]
      exact create_no_watch options slowVerdict emitted a

/-- Witness for C9 at a concrete scalar watching configuration and no
callback. -/
theorem C9_watch_without_callback_witness :
    (expectedWatch (WInput.single
        { pluginsField := PluginsField.absent, watch := true, watchOptions := none,
          dependencies := none, fastCheckOk := true }) = true →
      (webpack (WInput.single
          { pluginsField := PluginsField.absent, watch := true, watchOptions := none,
            dependencies := none, fastCheckOk := true }) false none
          { runErr := none, runStats := none, closeErr := none } []).1
        = Except.ok (some (CompilerHandle.single
            { id := 0,
              options :=
                { pluginsField := PluginsField.absent, watch := true, watchOptions := none,
                  dependencies := none, fastCheckOk := true } })) ∧
      (webpack (WInput.single
          { pluginsField := PluginsField.absent, watch := true, watchOptions := none,
            dependencies := none, fastCheckOk := true }) false none
          { runErr := none, runStats := none, closeErr := none } []).2.1
        = (create (WInput.single
            { pluginsField := PluginsField.absent, watch := true, watchOptions := none,
              dependencies := none, fastCheckOk := true }) none []).2.1
          ++ (deprecateOnce depWatchWithoutCallback
              (create (WInput.single
                { pluginsField := PluginsField.absent, watch := true, watchOptions := none,
                  dependencies := none, fastCheckOk := true }) none []).2.2).1 ∧
      ((webpack (WInput.single
          { pluginsField := PluginsField.absent, watch := true, watchOptions := none,
            dependencies := none, fastCheckOk := true }) false none
          { runErr := none, runStats := none, closeErr := none } []).2.1).count
          (Ev.deprecate depWatchWithoutCallback)
        = (if depWatchWithoutCallback ∈ (create (WInput.single
              { pluginsField := PluginsField.absent, watch := true, watchOptions := none,
                dependencies := none, fastCheckOk := true }) none []).2.2
           then 0 else 1) ∧
      Ev.runCall ∉ (webpack (WInput.single
          { pluginsField := PluginsField.absent, watch := true, watchOptions := none,
            dependencies := none, fastCheckOk := true }) false none
          { runErr := none, runStats := none, closeErr := none } []).2.1 ∧
      Ev.closeCall ∉ (webpack (WInput.single
          { pluginsField := PluginsField.absent, watch := true, watchOptions := none,
            dependencies := none, fastCheckOk := true }) false none
          { runErr := none, runStats := none, closeErr := none } []).2.1 ∧
      (∀ a, Ev.watchCall a ∉ (webpack (WInput.single
          { pluginsField := PluginsField.absent, watch := true, watchOptions := none,
            dependencies := none, fastCheckOk := true }) false none
          { runErr := none, runStats := none, closeErr := none } []).2.1)) ∧
    (expectedWatch (WInput.single
        { pluginsField := PluginsField.absent, watch := true, watchOptions := none,
          dependencies := none, fastCheckOk := true }) = false →
      (webpack (WInput.single
          { pluginsField := PluginsField.absent, watch := true, watchOptions := none,
            dependencies := none, fastCheckOk := true }) false none
          { runErr := none, runStats := none, closeErr := none } []).1
        = Except.ok (some (CompilerHandle.single
            { id := 0,
              options :=
                { pluginsField := PluginsField.absent, watch := true, watchOptions := none,
                  dependencies := none, fastCheckOk := true } })) ∧
      (webpack (WInput.single
          { pluginsField := PluginsField.absent, watch := true, watchOptions := none,
            dependencies := none, fastCheckOk := true }) false none
          { runErr := none, runStats := none, closeErr := none } []).2.1
        = (create (WInput.single
            { pluginsField := PluginsField.absent, watch := true, watchOptions := none,
              dependencies := none, fastCheckOk := true }) none []).2.1 ∧
      Ev.deprecate depWatchWithoutCallback ∉ (webpack (WInput.single
          { pluginsField := PluginsField.absent, watch := true, watchOptions := none,
            dependencies := none, fastCheckOk := true }) false none
          { runErr := none, runStats := none, closeErr := none } []).2.1 ∧
      Ev.runCall ∉ (webpack (WInput.single
          { pluginsField := PluginsField.absent, watch := true, watchOptions := none,
            dependencies := none, fastCheckOk := true }) false none
          { runErr := none, runStats := none, closeErr := none } []).2.1 ∧
      Ev.closeCall ∉ (webpack (WInput.single
          { pluginsField := PluginsField.absent, watch := true, watchOptions := none,
            dependencies := none, fastCheckOk := true }) false none
          { runErr := none, runStats := none, closeErr := none } []).2.1 ∧
      (∀ a, Ev.watchCall a ∉ (webpack (WInput.single
          { pluginsField := PluginsField.absent, watch := true, watchOptions := none,
            dependencies := none, fastCheckOk := true }) false none
          { runErr := none, runStats := none, closeErr := none } []).2.1)) :=
  C9_watch_without_callback (WInput.single
    { pluginsField := PluginsField.absent, watch := true, watchOptions := none,
      dependencies := none, fastCheckOk := true }) none
    { runErr := none, runStats := none, closeErr := none } []
    { compiler := CompilerHandle.single
        { id := 0,
          options :=
            { pluginsField := PluginsField.absent, watch := true, watchOptions := none,
              dependencies := none, fastCheckOk := true } },
      watch := true, watchOptions := WatchArg.single WatchOpts.empty }
    (by rfl)

end Webpack
